import Mathlib

/-! The `foo` extension module of `c/type_alias_value_getter.c`.

A shallow embedding of the C extension module: the object heap of the host
runtime with reference counts, the private `typealiasobject` layout, the
accessor `foo_test`, the method table `foo_methods`, the module definition
`foo` and the initialisation routine `PyInit_foo`.

Conventions of the embedding:

* a pointer is a natural number, `0` is `NULL`, and the pointer `q + 1`
  designates the object stored at index `q` of the heap;
* an object is its header (`ob_refcnt`, `ob_type`) followed by the
  pointer-sized words of its body, so that a cast to another structure type is
  a reinterpretation of those words;
* reference counts are natural numbers (the width of `Py_ssize_t` is never
  approached by one increment);
* a C function call yields an `Outcome`: a returned value together with the
  state it leaves, the end of the body reached without a `return`, or
  undefined behaviour.
-/

namespace TypeAliasValueGetter

/-- A pointer of the C program: `0` is `NULL`, `q + 1` is the object at heap index `q`. -/
abbrev Ptr := Nat

/-- The null pointer. -/
abbrev NULL : Ptr := 0

/-- Runtime type tag held in the `ob_type` word of an object header. -/
inductive PyTypeTag where
  | typealias
  | module
  | other (id : Nat)
  deriving DecidableEq

/-- Exception kinds the host runtime can leave in its error indicator. -/
inductive PyExc where
  | TypeError
  | SystemError
  deriving DecidableEq

/-- An object in memory: `PyObject_HEAD` followed by the words of the body. -/
structure PyObject where
  ob_refcnt : Nat
  ob_type : PyTypeTag
  mem : List Nat
  deriving DecidableEq

/-- The host runtime state the module can observe: the object heap, the error
indicator of the running thread, and the registry of created module objects
(pointer, module name, names of the exported callables). -/
structure State where
  heap : List PyObject
  curexc : Option PyExc
  modules : List (Ptr × String × List String)
  deriving DecidableEq

/-- Result of running a C function returning `PyObject *`. -/
inductive Outcome where
  | returned (r : Ptr) (s : State)
  | noReturn (s : State)
  | undefined
  deriving DecidableEq

/-- The pointer handed back to the caller, when there is one. -/
def Outcome.retval : Outcome → Option Ptr
  | .returned r _ => some r
  | .noReturn _ => none
  | .undefined => none

/-- The state left by a call, when it is defined. -/
def Outcome.state : Outcome → Option State
  | .returned _ s => some s
  | .noReturn s => some s
  | .undefined => none

/-- The fields that follow `PyObject_HEAD` in `typealiasobject`, in declaration order. -/
inductive typealiasobject.Field where
  | name
  | type_params
  | compute_value
  | value
  | module
  deriving DecidableEq

/-- Word offset of a field behind the header, as fixed by the declaration order. -/
def typealiasobject.Field.index : typealiasobject.Field → Nat
  | .name => 0
  | .type_params => 1
  | .compute_value => 2
  | .value => 3
  | .module => 4

/-- The structure `typealiasobject`: header and five pointer fields. -/
structure typealiasobject where
  ob_refcnt : Nat
  ob_type : PyTypeTag
  name : Ptr
  type_params : Ptr
  compute_value : Ptr
  value : Ptr
  module : Ptr
  deriving DecidableEq

/-- Memory image of a `typealiasobject`. -/
def typealiasobject.toPyObject (ta : typealiasobject) : PyObject :=
  { ob_refcnt := ta.ob_refcnt
    ob_type := ta.ob_type
    mem := [ta.name, ta.type_params, ta.compute_value, ta.value, ta.module] }

/-- Dereference a pointer: `NULL` and pointers past the heap designate no object. -/
def deref (heap : List PyObject) : Ptr → Option PyObject
  | 0 => none
  | q + 1 => heap[q]?

/-- Reference count of the object a pointer designates. -/
def refcnt (s : State) (p : Ptr) : Option Nat :=
  (deref s.heap p).map PyObject.ob_refcnt

/-- The load `((typealiasobject *)p)->f`: the word at the offset of `f` in the body
of the object at `p`. There is no value when `p` designates no object or the
object is too small for the field (an out-of-bounds read). -/
def loadField (s : State) (p : Ptr) (f : typealiasobject.Field) : Option Nat :=
  (deref s.heap p).bind (fun o => o.mem[f.index]?)

/-- Modelled from the spec: the host macro `Py_INCREF` of `Python.h`, which adds
one to the shared-ownership count of the object at `op`. It writes through the
pointer, so there is no resulting state for `NULL` or a pointer to no object. -/
def Py_INCREF (s : State) : Ptr → Option State
  | 0 => none
  | q + 1 =>
    match s.heap[q]? with
    | some o => some { s with heap := s.heap.set q { o with ob_refcnt := o.ob_refcnt + 1 } }
    | none => none

/-- Modelled from the spec: the host function `Py_NewRef` of `Python.h`, which
takes a new owning reference to `obj` (one `Py_INCREF`) and returns `obj`. -/
def Py_NewRef (s : State) (obj : Ptr) : Outcome :=
  match Py_INCREF s obj with
  | some s1 => .returned obj s1
  | none => .undefined

/-- Modelled from the spec: the host function `PyArg_ParseTuple` of `Python.h`
for formats made of `O` units. Each `O` takes one item of the argument tuple
unchanged as a borrowed reference; when the number of items differs from the
number of units a `TypeError` is left in the error indicator and the call
fails. A format with any other character is rejected with a `SystemError`.
The result is the new state and, on success, the stored output pointers. -/
def PyArg_ParseTuple (s : State) (args : List Ptr) (format : List Char) :
    State × Option (List Ptr) :=
  if format.all (fun c => c == 'O') then
    if args.length = format.length then (s, some args)
    else ({ s with curexc := some PyExc.TypeError }, none)
  else ({ s with curexc := some PyExc.SystemError }, none)

/-- The accessor `foo_test(self, args)`; `args` is the argument tuple given by
its items. -/
def foo_test (s : State) (_self : Ptr) (args : List Ptr) : Outcome :=
  match PyArg_ParseTuple s args ['O'] with
  | (s1, none) => .returned NULL s1
  | (s1, some [aliasObj]) =>
    match loadField s1 aliasObj .compute_value with
    | some compute_value => Py_NewRef s1 compute_value
    | none => .undefined
  | (_, some _) => .undefined

/-- Signature of a native callable of the host: receiver and argument tuple. -/
abbrev PyCFunction := State → Ptr → List Ptr → Outcome

/-- Modelled from the spec: the flag `METH_VARARGS` of `Python.h` (positional arguments). -/
def METH_VARARGS : Nat := 0x0001

/-- Modelled from the spec: the flag `METH_KEYWORDS` of `Python.h` (keyword arguments). -/
def METH_KEYWORDS : Nat := 0x0002

/-- An entry of a method table; a `NULL` string or function is `none`. -/
structure PyMethodDef where
  ml_name : Option String
  ml_meth : Option PyCFunction
  ml_flags : Nat
  ml_doc : Option String

/-- The method table `foo_methods`, sentinel included. -/
def foo_methods : List PyMethodDef :=
  [ { ml_name := some "test", ml_meth := some foo_test, ml_flags := METH_VARARGS,
      ml_doc := some "debug alias." },
    { ml_name := none, ml_meth := none, ml_flags := 0, ml_doc := none } ]

/-- The entries of a method table that precede its sentinel (the first entry
whose name is `NULL`), which is how the host walks the table. -/
def methodEntries (table : List PyMethodDef) : List PyMethodDef :=
  table.takeWhile (fun d => d.ml_name.isSome)

/-- A module definition (`struct PyModuleDef` without its header). -/
structure PyModuleDef where
  m_name : String
  m_doc : Option String
  m_size : Int
  m_methods : List PyMethodDef

/-- The module definition `foo`. -/
def foo : PyModuleDef :=
  { m_name := "foo", m_doc := none, m_size := -1, m_methods := foo_methods }

/-- Modelled from the spec: the host function `PyModule_Create` of `Python.h`,
which constructs one new module object from a module definition: a fresh heap
object owned by the caller, registered under the name given by the definition with
the names of its exported callables. Returns the pointer and the new state. -/
def PyModule_Create (s : State) (d : PyModuleDef) : Ptr × State :=
  let m : Ptr := s.heap.length + 1
  (m, { s with
        heap := s.heap ++ [{ ob_refcnt := 1, ob_type := PyTypeTag.module, mem := [] }]
        modules := s.modules ++
          [(m, d.m_name, (methodEntries d.m_methods).filterMap PyMethodDef.ml_name)] })

/-- The initialisation routine `PyInit_foo(void)`: its body is the single
expression statement `PyModule_Create(&foo);` and the closing brace is reached
without a `return`. -/
def PyInit_foo (s : State) : Outcome :=
  let (_, s1) := PyModule_Create s foo
  .noReturn s1

/-- Overwrite the type tag in the header of the object at `p`. -/
def setType (s : State) (p : Ptr) (t : PyTypeTag) : State :=
  match p with
  | 0 => s
  | q + 1 =>
    match s.heap[q]? with
    | some o => { s with heap := s.heap.set q { o with ob_type := t } }
    | none => s

/-- Overwrite the body of the object at `p` with the five fields of an alias. -/
def setAliasFields (s : State) (p : Ptr) (name type_params compute_value value module : Ptr) :
    State :=
  match p with
  | 0 => s
  | q + 1 =>
    match s.heap[q]? with
    | some o =>
      let o1 : PyObject := { o with mem := [name, type_params, compute_value, value, module] }
      { s with heap := s.heap.set q o1 }
    | none => s

/-- The object at `p` is a genuine alias object: it carries the alias type tag
and its body is the five fields of `typealiasobject`. -/
def GenuineAlias (s : State) (p : Ptr) (ta : typealiasobject) : Prop :=
  deref s.heap p = some ta.toPyObject ∧ ta.ob_type = PyTypeTag.typealias

instance (s : State) (p : Ptr) (ta : typealiasobject) : Decidable (GenuineAlias s p ta) := by
  unfold GenuineAlias; infer_instance

/-- A sample state: a sentinel for `compute_value` at 1, a sentinel for `value`
at 2, an alias object at 3 whose other fields are `NULL`, and a second alias
at 4 with the same `compute_value` and different other fields. -/
def sampleState : State :=
  { heap := [ { ob_refcnt := 1, ob_type := .other 7, mem := [] },
              { ob_refcnt := 4, ob_type := .other 7, mem := [] },
              { ob_refcnt := 1, ob_type := .typealias, mem := [0, 0, 1, 2, 0] },
              { ob_refcnt := 1, ob_type := .typealias, mem := [2, 2, 1, 0, 2] } ]
    curexc := none
    modules := [] }

/-- A sample state with an alias at 2 whose value was supplied eagerly: the
`value` field holds the object at 1 and `compute_value` is `NULL`. -/
def eagerState : State :=
  { heap := [ { ob_refcnt := 2, ob_type := .other 7, mem := [] },
              { ob_refcnt := 1, ob_type := .typealias, mem := [0, 0, 0, 1, 0] } ]
    curexc := none
    modules := [] }

/-! ## Auxiliary facts about the host primitives -/

theorem PyArg_ParseTuple_O (s : State) (args : List Ptr) :
    PyArg_ParseTuple s args ['O'] =
      if args.length = 1 then (s, some args)
      else ({ s with curexc := some PyExc.TypeError }, none) := by
  simp [PyArg_ParseTuple]

theorem foo_test_wrong_arity (s : State) (self : Ptr) (args : List Ptr)
    (h : args.length ≠ 1) :
    foo_test s self args = .returned NULL { s with curexc := some PyExc.TypeError } := by
  simp [foo_test, PyArg_ParseTuple_O, h]

theorem foo_test_single (s : State) (self a : Ptr) :
    foo_test s self [a] =
      match loadField s a .compute_value with
      | some compute_value => Py_NewRef s compute_value
      | none => .undefined := by
  simp [foo_test, PyArg_ParseTuple_O]

theorem length_eq_one_cases (args : List Ptr) (h : args.length = 1) : ∃ a, args = [a] := by
  match args, h with
  | [a], _ => exact ⟨a, rfl⟩

theorem Py_INCREF_eq_some (s s1 : State) (p : Ptr) (h : Py_INCREF s p = some s1) :
    ∃ q o, p = q + 1 ∧ s.heap[q]? = some o ∧
      s1 = { s with heap := s.heap.set q { o with ob_refcnt := o.ob_refcnt + 1 } } := by
  cases p with
  | zero => simp [Py_INCREF] at h
  | succ q =>
    cases hq : s.heap[q]? with
    | none => simp [Py_INCREF, hq] at h
    | some o =>
      simp [Py_INCREF, hq] at h
      exact ⟨q, o, rfl, hq, h.symm⟩

theorem Py_INCREF_of_deref (s : State) (p : Ptr) (o : PyObject) (h : deref s.heap p = some o) :
    ∃ s1, Py_INCREF s p = some s1 := by
  cases p with
  | zero => simp [deref] at h
  | succ q =>
    simp only [deref] at h
    simp [Py_INCREF, h]

theorem Py_NewRef_returned (s s1 : State) (p r : Ptr) (h : Py_NewRef s p = .returned r s1) :
    r = p ∧ Py_INCREF s p = some s1 := by
  unfold Py_NewRef at h
  cases hi : Py_INCREF s p with
  | none => simp [hi] at h
  | some s2 =>
    simp [hi] at h
    exact ⟨h.1.symm, by rw [h.2]⟩

theorem Py_NewRef_ne_noReturn (s s1 : State) (p : Ptr) : Py_NewRef s p ≠ .noReturn s1 := by
  unfold Py_NewRef
  cases Py_INCREF s p <;> simp

/-- A call with one argument that returns did so through `Py_NewRef` of the
loaded `compute_value` word. -/
theorem foo_test_single_returned (s s1 : State) (self a r : Ptr)
    (h : foo_test s self [a] = .returned r s1) :
    loadField s a .compute_value = some r ∧ Py_INCREF s r = some s1 := by
  rw [foo_test_single] at h
  cases hl : loadField s a .compute_value with
  | none => simp [hl] at h
  | some cv =>
    simp only [hl] at h
    obtain ⟨hr, hi⟩ := Py_NewRef_returned s s1 cv r h
    subst hr
    exact ⟨rfl, hi⟩

theorem Py_INCREF_ne_null (s s1 : State) (p : Ptr) (h : Py_INCREF s p = some s1) : p ≠ NULL := by
  obtain ⟨q, _, hp, _, _⟩ := Py_INCREF_eq_some s s1 p h
  rw [hp]
  exact Nat.succ_ne_zero q

theorem loadField_of_GenuineAlias (s : State) (a : Ptr) (ta : typealiasobject)
    (h : GenuineAlias s a ta) (f : typealiasobject.Field) :
    loadField s a f =
      some (match f with
        | .name => ta.name
        | .type_params => ta.type_params
        | .compute_value => ta.compute_value
        | .value => ta.value
        | .module => ta.module) := by
  unfold loadField
  rw [h.1]
  cases f <;> rfl

theorem deref_set (heap : List PyObject) (q : Nat) (o : PyObject) (x : Ptr) :
    deref (heap.set q o) x =
      if x = q + 1 then (if q < heap.length then some o else none) else deref heap x := by
  cases x with
  | zero => simp [deref]
  | succ r =>
    simp only [deref, List.getElem?_set]
    by_cases hqr : q = r
    · subst hqr; simp
    · have hne : ¬ (r + 1 = q + 1) := fun h => hqr (by omega)
      simp [hqr, hne]

theorem loadField_eq_of_mem (s s1 : State) (p : Ptr)
    (h : (deref s1.heap p).map PyObject.mem = (deref s.heap p).map PyObject.mem)
    (f : typealiasobject.Field) : loadField s1 p f = loadField s p f := by
  unfold loadField
  cases h1 : deref s1.heap p <;> cases h0 : deref s.heap p <;> simp_all

/-- What one `Py_INCREF` changes and what it leaves alone. -/
theorem Py_INCREF_frame (s s1 : State) (p : Ptr) (h : Py_INCREF s p = some s1) :
    s1.curexc = s.curexc ∧ s1.modules = s.modules ∧ s1.heap.length = s.heap.length ∧
    (∀ x, (deref s1.heap x).map PyObject.mem = (deref s.heap x).map PyObject.mem) ∧
    (∀ x, (deref s1.heap x).map PyObject.ob_type = (deref s.heap x).map PyObject.ob_type) ∧
    (∀ x, x ≠ p → refcnt s1 x = refcnt s x) ∧
    (∃ n, refcnt s p = some n ∧ refcnt s1 p = some (n + 1)) := by
  obtain ⟨q, o, hp, hq, hs1⟩ := Py_INCREF_eq_some s s1 p h
  subst hp
  subst hs1
  have hlt : q < s.heap.length := by
    rcases Nat.lt_or_ge q s.heap.length with hlt | hge
    · exact hlt
    · rw [List.getElem?_eq_none hge] at hq
      cases hq
  have hd : deref s.heap (q + 1) = some o := hq
  refine ⟨rfl, rfl, by simp, ?_, ?_, ?_, ?_⟩
  · intro x
    simp only [deref_set]
    by_cases hx : x = q + 1
    · subst hx; simp [hlt, hd]
    · simp [hx]
  · intro x
    simp only [deref_set]
    by_cases hx : x = q + 1
    · subst hx; simp [hlt, hd]
    · simp [hx]
  · intro x hx
    simp [refcnt, deref_set, hx]
  · exact ⟨o.ob_refcnt, by simp [refcnt, hd], by simp [refcnt, deref_set, hlt]⟩

/-- The pointer a one-argument call hands back: the loaded `compute_value`
word, provided it designates an object. -/
theorem foo_test_single_retval (s : State) (self a : Ptr) :
    (foo_test s self [a]).retval =
      (loadField s a .compute_value).bind
        (fun c => if (deref s.heap c).isSome then some c else none) := by
  rw [foo_test_single]
  cases hl : loadField s a .compute_value with
  | none => simp [Outcome.retval]
  | some c =>
    cases c with
    | zero => simp [Py_NewRef, Py_INCREF, deref, Outcome.retval]
    | succ q =>
      cases hq : s.heap[q]? <;> simp [Py_NewRef, Py_INCREF, deref, Outcome.retval, hq]

theorem deref_setType (s : State) (p : Ptr) (t : PyTypeTag) (x : Ptr) :
    (deref (setType s p t).heap x).map PyObject.mem = (deref s.heap x).map PyObject.mem := by
  cases p with
  | zero => rfl
  | succ q =>
    cases hq : s.heap[q]? with
    | none => simp [setType, hq]
    | some o =>
      have hlt : q < s.heap.length := by
        rcases Nat.lt_or_ge q s.heap.length with hlt | hge
        · exact hlt
        · rw [List.getElem?_eq_none hge] at hq
          cases hq
      have hd : deref s.heap (q + 1) = some o := hq
      simp only [setType, hq, deref_set]
      by_cases hx : x = q + 1
      · subst hx; simp [hlt, hd]
      · simp [hx]

theorem isSome_of_map_mem (s s1 : State) (x : Ptr)
    (h : (deref s1.heap x).map PyObject.mem = (deref s.heap x).map PyObject.mem) :
    (deref s1.heap x).isSome = (deref s.heap x).isSome := by
  cases h1 : deref s1.heap x <;> cases h0 : deref s.heap x <;> simp_all

theorem isSome_deref_setAliasFields (s : State) (p n tp cv v m x : Ptr) :
    (deref (setAliasFields s p n tp cv v m).heap x).isSome = (deref s.heap x).isSome := by
  cases p with
  | zero => rfl
  | succ q =>
    cases hq : s.heap[q]? with
    | none => simp [setAliasFields, hq]
    | some o =>
      have hlt : q < s.heap.length := by
        rcases Nat.lt_or_ge q s.heap.length with hlt | hge
        · exact hlt
        · rw [List.getElem?_eq_none hge] at hq
          cases hq
      have hd : deref s.heap (q + 1) = some o := hq
      simp only [setAliasFields, hq, deref_set]
      by_cases hx : x = q + 1
      · subst hx; simp [hlt, hd]
      · simp [hx]

theorem loadField_setAliasFields (s : State) (p n tp cv v m : Ptr) (o : PyObject)
    (h : deref s.heap p = some o) :
    loadField (setAliasFields s p n tp cv v m) p .compute_value = some cv := by
  cases p with
  | zero => simp [deref] at h
  | succ q =>
    have hq : s.heap[q]? = some o := h
    have hlt : q < s.heap.length := by
      rcases Nat.lt_or_ge q s.heap.length with hlt | hge
      · exact hlt
      · rw [List.getElem?_eq_none hge] at hq
        cases hq
    simp [loadField, setAliasFields, hq, deref_set, hlt, typealiasobject.Field.index]

/-! ## The claims -/

/-- Claim C1: a call of `foo_test` whose argument tuple holds exactly one genuine
alias object with an object in its `compute_value` slot succeeds, and the
pointer it returns is that very object; the state it leaves is the one after
one `Py_INCREF` of that object. -/
theorem foo_test_returns_compute_value (s : State) (self a : Ptr) (ta : typealiasobject)
    (sentinel : PyObject) (halias : GenuineAlias s a ta)
    (hslot : deref s.heap ta.compute_value = some sentinel) :
    ∃ s1, foo_test s self [a] = .returned ta.compute_value s1 ∧
      Py_INCREF s ta.compute_value = some s1 ∧ ta.compute_value ≠ NULL := by
  obtain ⟨s1, hi⟩ := Py_INCREF_of_deref s ta.compute_value sentinel hslot
  refine ⟨s1, ?_, hi, Py_INCREF_ne_null s s1 _ hi⟩
  rw [foo_test_single, loadField_of_GenuineAlias s a ta halias]
  simp [Py_NewRef, hi]

/-- Witness for C1 on the sample state: the alias at 3 has the sentinel at 1 in
its `compute_value` slot. -/
theorem foo_test_returns_compute_value_witness :
    GenuineAlias sampleState 3 ⟨1, .typealias, 0, 0, 1, 2, 0⟩ ∧
    deref sampleState.heap 1 = some ⟨1, .other 7, []⟩ ∧
    ∃ s1, foo_test sampleState 0 [3] = .returned 1 s1 ∧
      Py_INCREF sampleState 1 = some s1 ∧ (1 : Ptr) ≠ NULL :=
  ⟨by decide, by decide,
    foo_test_returns_compute_value sampleState 0 3 ⟨1, .typealias, 0, 0, 1, 2, 0⟩
      ⟨1, .other 7, []⟩ (by decide) (by decide)⟩

/-- Claim C2: `foo_test` returns `NULL` with a `TypeError` in the error indicator
exactly when the argument tuple does not have length 1. -/
theorem foo_test_arity_error_iff (s : State) (self : Ptr) (args : List Ptr) :
    (∃ s1, foo_test s self args = .returned NULL s1 ∧ s1.curexc = some PyExc.TypeError) ↔
      args.length ≠ 1 := by
  constructor
  · rintro ⟨s1, h, _⟩ hlen
    obtain ⟨a, rfl⟩ := length_eq_one_cases args hlen
    have h2 := (foo_test_single_returned s s1 self a NULL h).2
    exact Py_INCREF_ne_null s s1 NULL h2 rfl
  · intro hlen
    exact ⟨_, foo_test_wrong_arity s self args hlen, rfl⟩

/-- Claim C10: the arity failure is atomic. For an argument tuple whose length is
not 1 the call returns `NULL` and leaves the whole heap (every reference count
and every word of every object) and the module registry as they were; only
the error indicator is set. -/
theorem foo_test_arity_error_atomic (s : State) (self : Ptr) (args : List Ptr)
    (hlen : args.length ≠ 1) :
    ∃ s1, foo_test s self args = .returned NULL s1 ∧ s1.heap = s.heap ∧
      s1.modules = s.modules ∧ s1.curexc = some PyExc.TypeError ∧
      (∀ p, refcnt s1 p = refcnt s p) ∧
      (∀ p f, loadField s1 p f = loadField s p f) :=
  ⟨_, foo_test_wrong_arity s self args hlen, rfl, rfl, rfl, fun _ => rfl, fun _ _ => rfl⟩

/-- Witness for C10: a call with two arguments on the sample state. -/
theorem foo_test_arity_error_atomic_witness :
    [3, 1].length ≠ 1 ∧
    ∃ s1, foo_test sampleState 0 [3, 1] = .returned NULL s1 ∧ s1.heap = sampleState.heap ∧
      s1.modules = sampleState.modules ∧ s1.curexc = some PyExc.TypeError ∧
      (∀ p, refcnt s1 p = refcnt sampleState p) ∧
      (∀ p f, loadField s1 p f = loadField sampleState p f) :=
  ⟨by decide, foo_test_arity_error_atomic sampleState 0 [3, 1] (by decide)⟩

/-- Claim C3: after a successful call of `foo_test` the reference count of the
returned object is exactly one greater than before the call. -/
theorem foo_test_increments_refcnt (s s1 : State) (self r : Ptr) (args : List Ptr)
    (hcall : foo_test s self args = .returned r s1) (hr : r ≠ NULL) :
    ∃ n, refcnt s r = some n ∧ refcnt s1 r = some (n + 1) := by
  by_cases hlen : args.length = 1
  · obtain ⟨a, rfl⟩ := length_eq_one_cases args hlen
    have hi := (foo_test_single_returned s s1 self a r hcall).2
    exact (Py_INCREF_frame s s1 r hi).2.2.2.2.2.2
  · rw [foo_test_wrong_arity s self args hlen] at hcall
    simp only [Outcome.returned.injEq] at hcall
    exact absurd hcall.1.symm hr

/-- Witness for C3: the call on the alias at 3 of the sample state returns the
sentinel at 1, whose count goes from 1 to 2. -/
theorem foo_test_increments_refcnt_witness :
    (∃ s1, foo_test sampleState 0 [3] = .returned 1 s1 ∧
      ∃ n, refcnt sampleState 1 = some n ∧ refcnt s1 1 = some (n + 1)) ∧
    refcnt sampleState 1 = some 1 :=
  ⟨⟨{ sampleState with heap := sampleState.heap.set 0 ⟨2, .other 7, []⟩ }, by decide,
      foo_test_increments_refcnt sampleState _ 0 1 [3] (by decide) (by decide)⟩, by decide⟩

/-- Claim C4: `foo_test` does not read the `value` slot (nor `name`, `type_params`
or `module`). Two genuine alias objects with the same `compute_value` yield the
same returned pointer whatever their other fields; overwriting the other
fields of the alias does not change the returned pointer; and when the
`compute_value` slot holds an object different from the content of the `value`
slot, the result is the former and not the latter. -/
theorem foo_test_reads_only_compute_value (s : State) (self a b : Ptr)
    (ta tb : typealiasobject) (ha : GenuineAlias s a ta) (hb : GenuineAlias s b tb)
    (hcv : ta.compute_value = tb.compute_value) :
    (foo_test s self [a]).retval = (foo_test s self [b]).retval ∧
    (∀ n tp v m, (foo_test (setAliasFields s a n tp ta.compute_value v m) self [a]).retval =
      (foo_test s self [a]).retval) ∧
    (∀ sentinel, deref s.heap ta.compute_value = some sentinel →
      ta.value ≠ ta.compute_value →
      (foo_test s self [a]).retval = some ta.compute_value ∧
      (foo_test s self [a]).retval ≠ some ta.value) := by
  have hla := loadField_of_GenuineAlias s a ta ha .compute_value
  have hlb := loadField_of_GenuineAlias s b tb hb .compute_value
  simp only at hla hlb
  refine ⟨?_, ?_, ?_⟩
  · rw [foo_test_single_retval, foo_test_single_retval, hla, hlb, hcv]
  · intro n tp v m
    rw [foo_test_single_retval, foo_test_single_retval, hla,
      loadField_setAliasFields s a n tp ta.compute_value v m _ ha.1]
    simp only [Option.some_bind, isSome_deref_setAliasFields]
  · intro sentinel hs hne
    rw [foo_test_single_retval, hla]
    simp only [Option.some_bind, hs, Option.isSome_some, if_true]
    refine ⟨trivial, fun h => hne ?_⟩
    simpa using h.symm

/-- Witness for C4: the aliases at 3 and 4 of the sample state share the
`compute_value` sentinel at 1 and differ in every other field. -/
theorem foo_test_reads_only_compute_value_witness :
    GenuineAlias sampleState 3 ⟨1, .typealias, 0, 0, 1, 2, 0⟩ ∧
    GenuineAlias sampleState 4 ⟨1, .typealias, 2, 2, 1, 0, 2⟩ ∧
    (foo_test sampleState 0 [3]).retval = (foo_test sampleState 0 [4]).retval ∧
    (foo_test sampleState 0 [3]).retval = some 1 :=
  ⟨by decide, by decide,
    (foo_test_reads_only_compute_value sampleState 0 3 4 ⟨1, .typealias, 0, 0, 1, 2, 0⟩
      ⟨1, .typealias, 2, 2, 1, 0, 2⟩ (by decide) (by decide) rfl).1, by decide⟩

/-- Claim C5: a successful call of `foo_test` writes nothing but the reference
count of the returned object. Every field of every object (so the five slots
of the alias, the `value` slot included) and every type tag are as before, the
reference count of every other object is as before, no object is created or
destroyed, and the error indicator and the module registry are untouched. -/
theorem foo_test_frame (s s1 : State) (self r : Ptr) (args : List Ptr)
    (hcall : foo_test s self args = .returned r s1) (hr : r ≠ NULL) :
    (∀ p f, loadField s1 p f = loadField s p f) ∧
    (∀ p, (deref s1.heap p).map PyObject.mem = (deref s.heap p).map PyObject.mem) ∧
    (∀ p, (deref s1.heap p).map PyObject.ob_type = (deref s.heap p).map PyObject.ob_type) ∧
    (∀ p, p ≠ r → refcnt s1 p = refcnt s p) ∧
    s1.heap.length = s.heap.length ∧ s1.curexc = s.curexc ∧ s1.modules = s.modules := by
  by_cases hlen : args.length = 1
  · obtain ⟨a, rfl⟩ := length_eq_one_cases args hlen
    have hi := (foo_test_single_returned s s1 self a r hcall).2
    obtain ⟨hexc, hmod, hlength, hmem, hty, hrc, _⟩ := Py_INCREF_frame s s1 r hi
    exact ⟨fun p f => loadField_eq_of_mem s s1 p (hmem p) f, hmem, hty, hrc, hlength, hexc, hmod⟩
  · rw [foo_test_wrong_arity s self args hlen] at hcall
    simp only [Outcome.returned.injEq] at hcall
    exact absurd hcall.1.symm hr

/-- Witness for C5: the successful call on the alias at 3 of the sample state. -/
theorem foo_test_frame_witness :
    ∃ s1, foo_test sampleState 0 [3] = .returned 1 s1 ∧
      ((∀ p f, loadField s1 p f = loadField sampleState p f) ∧
      (∀ p, (deref s1.heap p).map PyObject.mem = (deref sampleState.heap p).map PyObject.mem) ∧
      (∀ p, (deref s1.heap p).map PyObject.ob_type =
        (deref sampleState.heap p).map PyObject.ob_type) ∧
      (∀ p, p ≠ 1 → refcnt s1 p = refcnt sampleState p) ∧
      s1.heap.length = sampleState.heap.length ∧ s1.curexc = sampleState.curexc ∧
      s1.modules = sampleState.modules) :=
  ⟨{ sampleState with heap := sampleState.heap.set 0 ⟨2, .other 7, []⟩ }, by decide,
    foo_test_frame sampleState _ 0 1 [3] (by decide) (by decide)⟩

/-- Claim C6, evaluated on the code: `PyInit_foo` constructs one module object
from the definition `foo` (named `foo`, exporting `test`), but its body ends
without a `return`, so no pointer is handed back to the caller. -/
theorem PyInit_foo_constructs_without_return (s : State) :
    (∃ m s1, PyModule_Create s foo = (m, s1) ∧ PyInit_foo s = .noReturn s1 ∧
      deref s1.heap m = some ⟨1, PyTypeTag.module, []⟩ ∧
      s1.modules = s.modules ++ [(m, "foo", ["test"])]) ∧
    (PyInit_foo s).retval = none ∧
    ∀ r s1, PyInit_foo s ≠ .returned r s1 := by
  refine ⟨⟨s.heap.length + 1, _, rfl, rfl, ?_, ?_⟩, rfl, ?_⟩
  · simp [deref]
  · simp [foo, foo_methods, methodEntries]
  · intro r s1 h
    simp [PyInit_foo] at h

/-- Claim C7 as stated fails on the description: the one entry of `foo_methods`
is not documented with the string `debug alias`. -/
theorem foo_methods_doc_ne_debug_alias :
    ¬ ∃ d, methodEntries foo_methods = [d] ∧ d.ml_name = some "test" ∧
      d.ml_meth = some foo_test ∧ d.ml_flags = METH_VARARGS ∧
      d.ml_flags &&& METH_KEYWORDS = 0 ∧ d.ml_doc = some "debug alias" := by
  rintro ⟨d, hd, -, -, -, -, hdoc⟩
  simp [methodEntries, foo_methods] at hd
  subst hd
  revert hdoc
  decide

/-- Claim C7, amended: `foo_methods` is one entry followed by the sentinel; the
entry is named `test`, is bound to `foo_test`, has the flags `METH_VARARGS`
without the keyword flag, and its description is `debug alias.` (with the
full stop). -/
theorem foo_methods_single_entry :
    ∃ d sentinel, foo_methods = [d, sentinel] ∧ sentinel.ml_name = none ∧
      methodEntries foo_methods = [d] ∧ d.ml_name = some "test" ∧
      d.ml_meth = some foo_test ∧ d.ml_flags = METH_VARARGS ∧
      d.ml_flags &&& METH_KEYWORDS = 0 ∧ d.ml_doc = some "debug alias." := by
  refine ⟨_, _, rfl, rfl, ?_, rfl, rfl, rfl, by decide, rfl⟩
  simp [methodEntries, foo_methods]

/-- Claim C8: `foo_test` performs no type check. For a one-argument call the
returned pointer is unchanged when the type tag of any object (the argument
included) is overwritten; two arguments whose word at the `compute_value`
offset agree yield the same returned pointer; the call never returns `NULL`
(no reported error), and when it returns the error indicator is untouched. -/
theorem foo_test_no_type_check (s : State) (self a : Ptr) :
    (∀ p t, (foo_test (setType s p t) self [a]).retval = (foo_test s self [a]).retval) ∧
    (∀ b, loadField s a .compute_value = loadField s b .compute_value →
      (foo_test s self [a]).retval = (foo_test s self [b]).retval) ∧
    (∀ s1, foo_test s self [a] ≠ .returned NULL s1) ∧
    (∀ r s1, foo_test s self [a] = .returned r s1 → s1.curexc = s.curexc) := by
  refine ⟨?_, ?_, ?_, ?_⟩
  · intro p t
    rw [foo_test_single_retval, foo_test_single_retval,
      loadField_eq_of_mem s (setType s p t) a (deref_setType s p t a)]
    congr 1
    funext c
    rw [isSome_of_map_mem s (setType s p t) c (deref_setType s p t c)]
  · intro b hb
    rw [foo_test_single_retval, foo_test_single_retval, hb]
  · intro s1 h
    exact Py_INCREF_ne_null s s1 NULL (foo_test_single_returned s s1 self a NULL h).2 rfl
  · intro r s1 h
    exact (Py_INCREF_frame s s1 r (foo_test_single_returned s s1 self a r h).2).1

/-- Witness for C8: retagging the alias at 3 of the sample state as an unrelated
type leaves the returned pointer the sentinel at 1. -/
theorem foo_test_no_type_check_witness :
    (foo_test (setType sampleState 3 (.other 9)) 0 [3]).retval =
      (foo_test sampleState 0 [3]).retval ∧
    (foo_test (setType sampleState 3 (.other 9)) 0 [3]).retval = some 1 ∧
    deref (setType sampleState 3 (.other 9)).heap 3 = some ⟨1, .other 9, [0, 0, 1, 2, 0]⟩ :=
  ⟨(foo_test_no_type_check sampleState 0 3).1 3 (.other 9), by decide, by decide⟩

/-- Claim C9 as stated fails: on a genuine alias whose value was supplied eagerly
the `compute_value` slot is `NULL`, `Py_NewRef` is applied to `NULL`, and the call
is undefined instead of returning a non-null object. -/
theorem foo_test_null_compute_value_undefined :
    GenuineAlias eagerState 2 ⟨1, .typealias, 0, 0, NULL, 1, 0⟩ ∧
    foo_test eagerState 0 [2] = Outcome.undefined ∧
    ¬ ∃ r s1, r ≠ NULL ∧ foo_test eagerState 0 [2] = .returned r s1 := by
  refine ⟨by decide, by decide, ?_⟩
  rintro ⟨r, s1, -, h⟩
  have hu : foo_test eagerState 0 [2] = Outcome.undefined := by decide
  rw [hu] at h
  cases h

/-- Claim C9, amended: for a genuine alias object whose `compute_value` slot holds
an object, the field load and the increment are defined and the call returns a
non-null pointer to an object; and whenever `foo_test` returns `NULL` the
argument tuple did not have length 1. -/
theorem foo_test_defined_on_held_compute_value (s : State) (self a : Ptr)
    (ta : typealiasobject) (target : PyObject) (halias : GenuineAlias s a ta)
    (hslot : deref s.heap ta.compute_value = some target) :
    foo_test s self [a] ≠ .undefined ∧
    (∃ r s1, foo_test s self [a] = .returned r s1 ∧ r ≠ NULL ∧ (deref s1.heap r).isSome) ∧
    (∀ args s1, foo_test s self args = .returned NULL s1 → args.length ≠ 1) := by
  obtain ⟨s1, hi⟩ := Py_INCREF_of_deref s ta.compute_value target hslot
  have hcall : foo_test s self [a] = .returned ta.compute_value s1 := by
    rw [foo_test_single, loadField_of_GenuineAlias s a ta halias]
    simp [Py_NewRef, hi]
  refine ⟨by rw [hcall]; simp, ⟨_, s1, hcall, Py_INCREF_ne_null s s1 _ hi, ?_⟩, ?_⟩
  · have hm := (Py_INCREF_frame s s1 _ hi).2.2.2.1 ta.compute_value
    rw [isSome_of_map_mem s s1 _ hm, hslot]
    rfl
  · intro args s2 h hlen
    obtain ⟨b, rfl⟩ := length_eq_one_cases args hlen
    exact Py_INCREF_ne_null s s2 NULL (foo_test_single_returned s s2 self b NULL h).2 rfl

/-- Witness for the amended C9 on the sample state. -/
theorem foo_test_defined_on_held_compute_value_witness :
    GenuineAlias sampleState 3 ⟨1, .typealias, 0, 0, 1, 2, 0⟩ ∧
    deref sampleState.heap 1 = some ⟨1, .other 7, []⟩ ∧
    foo_test sampleState 0 [3] ≠ .undefined ∧
    (∃ r s1, foo_test sampleState 0 [3] = .returned r s1 ∧ r ≠ NULL ∧
      (deref s1.heap r).isSome) :=
  ⟨by decide, by decide,
    (foo_test_defined_on_held_compute_value sampleState 0 3 ⟨1, .typealias, 0, 0, 1, 2, 0⟩
      ⟨1, .other 7, []⟩ (by decide) (by decide)).1,
    (foo_test_defined_on_held_compute_value sampleState 0 3 ⟨1, .typealias, 0, 0, 1, 2, 0⟩
      ⟨1, .other 7, []⟩ (by decide) (by decide)).2.1⟩

end TypeAliasValueGetter
